import Mathlib

set_option maxHeartbeats 1000000

/-!
A shallow embedding of `src/SchoolOlympiadQuizBot.py`: the SQLite content
store (`years`, `topics`, `olympiads`, `olympiad_topics`), the ingestion
pipeline `parse_excel_and_images`, the destructive `clear_database`, the
query surface (`get_exercises_by_topics_and_year`,
`get_tasks_for_year_and_exercise`, ...) and the per-user navigation
handlers relevant to the claims (`choose_exercise`, `back_to_exercises`,
the HINT-state dispatch table of `main`).

Python cell values, truthiness, `int(float(...))` parsing, `str.split`,
and `str.strip` are modelled explicitly; string-level models cover the
plain decimal notations the bundle format uses (no exponent notation).
SQLite specifics that matter are modelled faithfully: AUTOINCREMENT
sequences persist across DELETE, `INSERT OR REPLACE` removes rows
conflicting on `UNIQUE(year_id, excercise)` and inserts a fresh row with a
new id, and foreign-key enforcement (hence `ON DELETE CASCADE`) is OFF on
every connection that does not execute `PRAGMA foreign_keys = ON` -- which
is every connection except the one inside `init_database`.
-/

namespace QuizBot

/-- Value held by a spreadsheet cell as openpyxl delivers it: Python
`None`, a string, or a numeric value (modelled as an integer). -/
inductive CellVal where
  | vnone : CellVal
  | vstr (s : String) : CellVal
  | vint (n : Int) : CellVal
deriving DecidableEq, Repr

/-- Python `str()` of a cell value. -/
def pyStr : CellVal → String
  | .vnone => "None"
  | .vstr s => s
  | .vint n => toString n

/-- Python truthiness of a cell value (`None`, `""` and `0` are falsy). -/
def truthy : CellVal → Bool
  | .vnone => false
  | .vstr s => s != ""
  | .vint n => n != 0

/-- Python truthiness of an optional string (`None` and `""` are falsy). -/
def optTruthy : Option String → Bool
  | none => false
  | some s => s != ""

/-- Decimal digits to a natural number. -/
def digitsToNat (cs : List Char) : Nat :=
  cs.foldl (fun n c => n * 10 + (c.toNat - 48)) 0

/-- Strip leading and trailing whitespace from a character list. -/
def trimChars (cs : List Char) : List Char :=
  ((cs.dropWhile Char.isWhitespace).reverse.dropWhile Char.isWhitespace).reverse

/-- Python `s.strip()`. -/
def pyStrip (s : String) : String := String.mk (trimChars s.toList)

/-- ASCII lowercase of one character. -/
def lowerChar (c : Char) : Char :=
  if 65 ≤ c.toNat && c.toNat ≤ 90 then Char.ofNat (c.toNat + 32) else c

/-- Python `s.lower()` (ASCII range; enough to decide equality with "none"). -/
def pyLower (s : String) : String := String.mk (s.toList.map lowerChar)

/-- Split a character list at every character satisfying `p`. -/
def splitPredAux (p : Char → Bool) : List Char → List Char → List (List Char)
  | [], acc => [acc.reverse]
  | c :: cs, acc =>
    if p c then acc.reverse :: splitPredAux p cs []
    else splitPredAux p cs (c :: acc)

/-- Outcome of `int(float(cell))` at lines 139/146 of the source. -/
inductive NumParse where
  | ok (n : Int)
  | badValue
  | overflow
deriving DecidableEq, Repr

/-- Rejects a digit run with doubled underscores. -/
def noDoubleUnderscore : List Char → Bool
  | '_' :: '_' :: _ => false
  | _ :: cs => noDoubleUnderscore cs
  | [] => true

/-- Python digit group `digit (["_"] digit)*`: consumes the leading run of
digits/underscores; `none` when the run has a leading, trailing or
doubled underscore (a `ValueError` in Python); otherwise the digits with
underscores removed, plus the unconsumed rest. The empty run is valid
(callers check the non-emptiness Python requires). -/
def digitGroup (cs : List Char) : Option (List Char × List Char) :=
  let run := cs.takeWhile (fun c => c.isDigit || c = '_')
  let rest := cs.drop run.length
  if run.head? = some '_' ∨ run.getLast? = some '_' ∨
      noDoubleUnderscore run = false then none
  else some (run.filter (fun c => c != '_'), rest)

/-- Smallest magnitude a decimal literal can have and still round to
binary64 infinity under round-to-nearest-even: the midpoint between the
largest finite double and 2^1024. At or above it, CPython's `float()`
returns `inf` and the subsequent `int()` raises `OverflowError`. -/
def floatInfThreshold : Nat := 2 ^ 1024 - 2 ^ 970

/-- Value step of `int(float(s))`: exact decimal value of
`ipart.fpart * 10^e`, truncated toward zero, with the overflow-to-inf
check. (The mantissa rounding of binary64 is not modelled: values are
exact, which only matters beyond 2^53 -- far outside the bundle data the
claims quantify over.) -/
def pyIntFloatVal (ipart fpart : List Char) (e : Int) (neg : Bool) : NumParse :=
  let M := digitsToNat (ipart ++ fpart)
  let scale : Int := e - (fpart.length : Int)
  if 0 ≤ scale then
    let v := M * 10 ^ scale.toNat
    if floatInfThreshold ≤ v then .overflow
    else .ok (if neg then -(v : Int) else (v : Int))
  else if floatInfThreshold * 10 ^ (-scale).toNat ≤ M then .overflow
  else
    let v := M / 10 ^ (-scale).toNat
    .ok (if neg then -(v : Int) else (v : Int))

/-- Exponent step of `int(float(s))`: after the mantissa, an optional
`e [sign] digits` suffix and nothing else. -/
def pyIntFloatExp (ipart fpart : List Char) (r : List Char) (neg : Bool) :
    NumParse :=
  if ipart.isEmpty && fpart.isEmpty then .badValue
  else
    match r with
    | [] => pyIntFloatVal ipart fpart 0 neg
    | 'e' :: r1 =>
      let signedExp := fun (r2 : List Char) (eneg : Bool) =>
        match digitGroup r2 with
        | none => NumParse.badValue
        | some (edigits, r3) =>
          if edigits.isEmpty ∨ r3 ≠ [] then .badValue
          else
            pyIntFloatVal ipart fpart
              (if eneg then -(digitsToNat edigits : Int)
               else (digitsToNat edigits : Int)) neg
      match r1 with
      | '-' :: rr => signedExp rr true
      | '+' :: rr => signedExp rr false
      | rr => signedExp rr false
    | _ => .badValue

/-- Mantissa step of `int(float(s))`: integer digits, an optional point
with fraction digits, then the exponent step. -/
def pyIntFloatCore (cs : List Char) (neg : Bool) : NumParse :=
  match digitGroup cs with
  | none => .badValue
  | some (ipart, r1) =>
    match r1 with
    | '.' :: r =>
      match digitGroup r with
      | none => .badValue
      | some (fpart, r2) => pyIntFloatExp ipart fpart r2 neg
    | _ => pyIntFloatExp ipart [] r1 neg

/-- Unsigned step of `int(float(s))`: the literals `inf`/`infinity` give
a float infinity whose `int()` raises `OverflowError` (NOT caught by the
`except (ValueError, TypeError)` of line 140 -- it aborts the whole run);
`nan` gives a `ValueError` from `int()` (caught: the row is skipped). -/
def pyIntFloatSigned (cs : List Char) (neg : Bool) : NumParse :=
  if cs = ['i', 'n', 'f'] ∨ cs = ['i', 'n', 'f', 'i', 'n', 'i', 't', 'y'] then
    .overflow
  else if cs = ['n', 'a', 'n'] then .badValue
  else pyIntFloatCore cs neg

/-- Model of `int(float(s))` on a string cell: strip, lowercase (the
grammar is case-insensitive), optional sign, then `inf`/`nan`/numeric.
Unmodelled corner: non-ASCII unicode digits, which Python also accepts. -/
def pyIntFloat (s : String) : NumParse :=
  match (trimChars s.toList).map lowerChar with
  | '-' :: rest => pyIntFloatSigned rest true
  | '+' :: rest => pyIntFloatSigned rest false
  | rest => pyIntFloatSigned rest false

/-- Model of `int(float(cell))` as the ingestion loop applies it: numeric
cells give their integer value, strings go through float parsing, `None`
raises a `TypeError` (caught, `badValue`). -/
def parseNumCell : CellVal → NumParse
  | .vnone => .badValue
  | .vint n => .ok n
  | .vstr s => pyIntFloat s

/-- Model of `QuizBot._clean_value`: `None`, case-insensitive `"none"` and
whitespace-only values collapse to `""`; otherwise the stripped string. -/
def clean_value (v : CellVal) : String :=
  match v with
  | .vnone => ""
  | _ =>
    let s := pyStrip (pyStr v)
    if pyLower s = "none" || s = "" then "" else s

/-- Python `s.split(',')`. -/
def pySplitComma (s : String) : List String :=
  (splitPredAux (fun c => c = ',') s.toList []).map (fun l => String.mk l)

/-- Model of `[t.strip() for t in str(topic_raw).split(',') if t.strip()]`. -/
def splitTopics (v : CellVal) : List String :=
  ((pySplitComma (pyStr v)).map pyStrip).filter (fun t => t != "")

/-- A row of the `olympiads` table. -/
structure Olympiad where
  id : Nat
  year_id : Nat
  excercise : Int
  task : String
  task_picture : Option String
  hint : String
  hint_picture : Option String
  answer : String
  answer_picture : Option String
deriving DecidableEq, Repr

/-- The SQLite content store: `years`, `topics`, `olympiads` and
`olympiad_topics`, plus the AUTOINCREMENT sequences (SQLite keeps these in
`sqlite_sequence`, so they survive DELETEs). -/
structure DB where
  years : List (Nat × Int)
  topics : List (Nat × String)
  olympiads : List Olympiad
  olympiad_topics : List (Nat × Nat)
  nextYearId : Nat
  nextTopicId : Nat
  nextOlympiadId : Nat
deriving DecidableEq, Repr

/-- A freshly created store (AUTOINCREMENT ids start at 1). -/
def emptyDB : DB := ⟨[], [], [], [], 1, 1, 1⟩

/-- The statement `INSERT OR IGNORE INTO years (year) VALUES (?)`. -/
def insertOrIgnoreYear (db : DB) (y : Int) : DB :=
  if db.years.any (fun p => p.2 == y) then db
  else { db with years := db.years ++ [(db.nextYearId, y)],
                 nextYearId := db.nextYearId + 1 }

/-- The query `SELECT id FROM years WHERE year = ?` (first row, if any). -/
def findYearId (db : DB) (y : Int) : Option Nat :=
  (db.years.find? (fun p => p.2 == y)).map Prod.fst

/-- Model of `fetchone()[0]` after the year SELECT; only evaluated right after an
`INSERT OR IGNORE` for the same year, so the row is always present. -/
def findYearIdD (db : DB) (y : Int) : Nat := (findYearId db y).getD 0

/-- The statement `INSERT OR IGNORE INTO topics (name) VALUES (?)`. -/
def insertOrIgnoreTopic (db : DB) (name : String) : DB :=
  if db.topics.any (fun p => p.2 == name) then db
  else { db with topics := db.topics ++ [(db.nextTopicId, name)],
                 nextTopicId := db.nextTopicId + 1 }

/-- The query `SELECT id FROM topics WHERE name = ?`, then `fetchone()[0]`. -/
def findTopicIdD (db : DB) (name : String) : Nat :=
  ((db.topics.find? (fun p => p.2 == name)).map Prod.fst).getD 0

/-- The statement `INSERT OR REPLACE INTO olympiads ...`: rows conflicting on
`UNIQUE(year_id, excercise)` are deleted and a fresh row is inserted with
a new AUTOINCREMENT id; the connection never enables
`PRAGMA foreign_keys`, so no cascade touches `olympiad_topics`.
Returns the new store and `lastrowid`. -/
def insertOrReplaceOlympiad (db : DB) (year_id : Nat) (exc : Int)
    (task : String) (t_pic : Option String) (hint : String)
    (h_pic : Option String) (answer : String) (a_pic : Option String) :
    DB × Nat :=
  let survivors := db.olympiads.filter
    (fun o => !(o.year_id == year_id && o.excercise == exc))
  let row : Olympiad :=
    ⟨db.nextOlympiadId, year_id, exc, task, t_pic, hint, h_pic, answer, a_pic⟩
  ({ db with olympiads := survivors ++ [row],
             nextOlympiadId := db.nextOlympiadId + 1 },
   db.nextOlympiadId)

/-- The statement `INSERT OR IGNORE INTO olympiad_topics (olympiad_id, topic_id)`. -/
def insertOrIgnoreOlympiadTopic (db : DB) (oid tid : Nat) : DB :=
  if db.olympiad_topics.any (fun l => l.1 == oid && l.2 == tid) then db
  else { db with olympiad_topics := db.olympiad_topics ++ [(oid, tid)] }

/-- The insert sequence of one accepted row (source lines 183-214):
upsert the year, read its id back, upsert each topic, `INSERT OR REPLACE`
the olympiad row, then link `lastrowid` to each topic id. -/
def ingestRow (db : DB) (year exc : Int) (topics_list : List String)
    (task : String) (t_pic : Option String) (hint : String)
    (h_pic : Option String) (answer : String) (a_pic : Option String) : DB :=
  let db1 := insertOrIgnoreYear db year
  let year_id := findYearIdD db1 year
  let db2 := topics_list.foldl insertOrIgnoreTopic db1
  let res := insertOrReplaceOlympiad db2 year_id exc task t_pic hint h_pic answer a_pic
  topics_list.foldl
    (fun d tname => insertOrIgnoreOlympiadTopic d res.2 (findTopicIdD d tname)) res.1

/-- Running state of the row loop: the store plus the reporting
counters/sets the loop accumulates. -/
structure LoadState where
  db : DB
  inserted_years : List Int
  inserted_topics : List String
  inserted : Nat
  skipped : Nat
deriving DecidableEq, Repr

/-- State at loop entry. -/
def initState (db : DB) : LoadState := ⟨db, [], [], 0, 0⟩

/-- Python set `add`: append if absent (insertion order kept). -/
def addNew {α : Type} [BEq α] (x : α) (l : List α) : List α :=
  if l.contains x then l else l ++ [x]

/-- Add each topic of a row to the `inserted_topics` set, in order. -/
def addTopics (l : List String) (ts : List String) : List String :=
  ts.foldl (fun acc t => addNew t acc) l

/-- The first `len(headers)` cells of a source row (openpyxl delivers
`None` for cells past the stored width). -/
def rowCells (h : List String) (row : List CellVal) : List CellVal :=
  (List.range h.length).map (fun i => row.getD i CellVal.vnone)

/-- Model of `any(str(cell).strip() if cell else '' for cell in row)`:
some cell is truthy and stringifies to a non-blank value. -/
def rowNonBlank (h : List String) (row : List CellVal) : Bool :=
  (rowCells h row).any (fun c => truthy c && pyStrip (pyStr c) != "")

/-- Model of `row[idx[col]]` for a required column (position via first index of the
header, as `headers.index(col)` computes it). -/
def reqCell (h : List String) (row : List CellVal) (col : String) : CellVal :=
  row.getD (h.findIdx (fun x => x == col)) CellVal.vnone

/-- Optional picture cell: `str(row[pic_cols[col]]).strip()` when the
column exists and the cell is truthy, else `None`. -/
def getPic (h : List String) (row : List CellVal) (col : String) : Option String :=
  if h.contains col then
    let v := row.getD (h.findIdx (fun x => x == col)) CellVal.vnone
    if truthy v then some (pyStrip (pyStr v)) else none
  else none

/-- Effect of one source row on the store: silently ignored (all blank),
counted as skipped, aborting the whole run (an uncaught `OverflowError`
from `int(±inf)` -- the `except` at line 140 catches only
`ValueError`/`TypeError`), or ingested (carrying the post-insert store,
the row's year and its topic list for the reporting sets). -/
inductive RowOutcome where
  | blank
  | skip
  | abort
  | ins (db : DB) (year : Int) (topics_list : List String)
deriving DecidableEq, Repr

/-- One iteration of the row loop of `parse_excel_and_images`
(source lines 133-216), given the store it runs against. -/
def rowEffect (h : List String) (db : DB) (row : List CellVal) : RowOutcome :=
  if rowNonBlank h row = false then .blank
  else
    match parseNumCell (reqCell h row "Year") with
    | .badValue => .skip
    | .overflow => .abort
    | .ok year =>
      match parseNumCell (reqCell h row "Excercise") with
      | .badValue => .skip
      | .overflow => .abort
      | .ok exc =>
        let topic_raw := reqCell h row "Topic"
        let task := reqCell h row "Task"
        let hint := reqCell h row "Hint"
        let answer := reqCell h row "Answer"
        let t_pic := getPic h row "Task_picture"
        let h_pic := getPic h row "Hint_picture"
        let a_pic := getPic h row "Answer_picture"
        if (year != 0 && exc != 0 && truthy topic_raw &&
            (truthy task || optTruthy t_pic) &&
            (truthy hint || optTruthy h_pic) &&
            (truthy answer || optTruthy a_pic)) = false then .skip
        else
          let topics_list := splitTopics topic_raw
          if topics_list = [] then .skip
          else .ins (ingestRow db year exc topics_list (clean_value task) t_pic
                      (clean_value hint) h_pic (clean_value answer) a_pic)
                    year topics_list

/-- One iteration of the row loop acting on the full loop state. On an
aborting row the state is returned unchanged: the `OverflowError` raises
at the parse (lines 139/146), before any insert of that iteration, so
`st` is exactly the state at the moment the exception fires;
`processRows` intercepts the outcome and fails the run there. -/
def processRow (h : List String) (st : LoadState) (row : List CellVal) : LoadState :=
  match rowEffect h st.db row with
  | .blank => st
  | .skip => { st with skipped := st.skipped + 1 }
  | .abort => st
  | .ins db' y ts =>
    { st with db := db', inserted := st.inserted + 1,
              inserted_years := addNew y st.inserted_years,
              inserted_topics := addTopics st.inserted_topics ts }

/-- The whole row loop; `none` models an uncaught exception propagating
out of the loop to the handler at line 223. -/
def processRows (h : List String) (st : LoadState) :
    List (List CellVal) → Option LoadState
  | [] => some st
  | r :: rs =>
    if rowEffect h st.db r = .abort then none
    else processRows h (processRow h st r) rs

/-- The decoded spreadsheet: the header row and the data rows
(source rows 2 .. max_row). -/
structure Sheet where
  headers : List String
  rows : List (List CellVal)
deriving DecidableEq, Repr

/-- The required columns of the bundle table. -/
def requiredCols : List String :=
  ["Year", "Excercise", "Topic", "Task", "Hint", "Answer"]

/-- The replace-mode wipe (`DELETE FROM olympiad_topics / olympiads /
topics / years`); AUTOINCREMENT sequences survive a DELETE. -/
def wipeDB (db : DB) : DB :=
  { db with olympiad_topics := [], olympiads := [], topics := [], years := [] }

/-- Model of `QuizBot.parse_excel_and_images`. The single `conn.commit()`
sits after the whole row loop, and every failure path returns `False`
before committing: the empty sheet and the missing-column error abort
before the connection is even opened, and an uncaught mid-loop exception
(`OverflowError` from a Year/Excercise cell such as "inf") reaches the
handler at line 223 with the transaction never committed, so the
wipe/inserts done so far are rolled back and the on-disk store is
unchanged. Returns the Python result (`True`/`False`) and the final loop
state (on failure, the untouched pre-run store). -/
def parse_excel_and_images (sheet : Sheet) (replace : Bool) (db : DB) :
    Bool × LoadState :=
  if sheet.rows.isEmpty then (false, initState db)
  else if (requiredCols.all (fun c => sheet.headers.contains c)) = false then
    (false, initState db)
  else
    let db0 := if replace then wipeDB db else db
    match processRows sheet.headers (initState db0) sheet.rows with
    | some final => (true, final)
    | none => (false, initState db)

/-- Model of `QuizBot.clear_database`: `DELETE FROM olympiads / topics / years`.
Its connection never executes `PRAGMA foreign_keys = ON`, so the declared
`ON DELETE CASCADE` does not fire and `olympiad_topics` is left as is. -/
def clear_database (db : DB) : DB :=
  { db with olympiads := [], topics := [], years := [] }

/-- Insert into an ascending list, keeping duplicates (`ORDER BY`). -/
def insertSorted (x : Int) : List Int → List Int
  | [] => [x]
  | y :: ys => if x ≤ y then x :: y :: ys else y :: insertSorted x ys

/-- Ascending sort (`ORDER BY`). -/
def sortInts (l : List Int) : List Int := l.foldr insertSorted []

/-- Insert into an ascending duplicate-free list. -/
def insertSortedNoDup (x : Int) : List Int → List Int
  | [] => [x]
  | y :: ys =>
    if x < y then x :: y :: ys
    else if x = y then y :: ys
    else y :: insertSortedNoDup x ys

/-- Output shape of `SELECT DISTINCT ... ORDER BY`: ascending, without
duplicates. -/
def sortDedup (l : List Int) : List Int := l.foldr insertSortedNoDup []

/-- Does `o` join to a `years` row holding the value `y`? -/
def olympYearIs (db : DB) (o : Olympiad) (y : Int) : Bool :=
  db.years.any (fun p => p.1 == o.year_id && p.2 == y)

/-- Does `o` have an association to a topic whose name is in
`topic_list`? (the `JOIN olympiad_topics JOIN topics ... IN` condition). -/
def olympHasTopicIn (db : DB) (o : Olympiad) (topic_list : List String) : Bool :=
  db.olympiad_topics.any (fun l =>
    l.1 == o.id && db.topics.any (fun t => t.1 == l.2 && topic_list.contains t.2))

/-- Model of `QuizBot.get_exercises_by_topics_and_year` (source lines 311-330):
distinct exercise numbers of the year's tasks linked to any listed topic,
ascending. (On an empty `topic_list` the real query text `IN ()` is an
SQL syntax error; callers always pass a non-empty list.) -/
def get_exercises_by_topics_and_year (db : DB) (year : Int)
    (topic_list : List String) : List Int :=
  sortDedup ((db.olympiads.filter
    (fun o => olympYearIs db o year && olympHasTopicIn db o topic_list)).map
    (fun o => o.excercise))

/-- The dictionary `get_tasks_for_year_and_exercise` builds from the
fetched row plus its topic names. -/
structure TaskView where
  id : Nat
  excercise : Int
  task : String
  t_pic : Option String
  hint : String
  h_pic : Option String
  answer : String
  a_pic : Option String
  topics : List String
deriving DecidableEq, Repr

/-- Topic names linked to one olympiad id. -/
def topicsForOlympiad (db : DB) (oid : Nat) : List String :=
  (db.topics.filter (fun t =>
    db.olympiad_topics.any (fun l => l.1 == oid && l.2 == t.1))).map Prod.snd

/-- Model of `QuizBot.get_tasks_for_year_and_exercise`: `fetchone()` on the
(year, excercise) join -- the first matching row, as a one-element list,
with its topic names; `[]` when absent. -/
def get_tasks_for_year_and_exercise (db : DB) (year exc : Int) : List TaskView :=
  match db.olympiads.find? (fun o => olympYearIs db o year && o.excercise == exc) with
  | none => []
  | some o => [⟨o.id, o.excercise, o.task, o.task_picture, o.hint, o.hint_picture,
               o.answer, o.answer_picture, topicsForOlympiad db o.id⟩]

/-- The topics query `choose_exercise` runs itself (source lines
441-450): names of topics linked to any olympiad of that
(year, excercise). -/
def topicsForYearExc (db : DB) (year exc : Int) : List String :=
  (db.topics.filter (fun t =>
    db.olympiad_topics.any (fun l => l.2 == t.1 &&
      db.olympiads.any (fun o => o.id == l.1 && o.excercise == exc &&
        olympYearIs db o year)))).map Prod.snd

/-- The states of the main ConversationHandler that the navigation claims
mention (`range(10)` constants of the source; END is
`ConversationHandler.END`). -/
inductive NavState where
  | CHOOSE_YEAR
  | CHOOSE_EXERCISE
  | CHOOSE_TOPIC_EXERCISE
  | TASK
  | HINT
  | ANSWER
  | END
deriving DecidableEq, Repr

/-- The per-user entry of `user_states` (a session): `year` and
`exercises` are always set together; `current_task` / `current_topics`
appear once a task was opened. -/
structure Session where
  year : Int
  exercises : List Int
  current_task : Option TaskView := none
  current_topics : Option (List String) := none
deriving DecidableEq, Repr

/-- The query `SELECT year FROM years ORDER BY year`. -/
def get_years_from_db (db : DB) : List Int := sortInts (db.years.map Prod.snd)

/-- Model of `QuizBot.start` as navigation handlers re-enter it: END when the store
has no years, else CHOOSE_YEAR; `user_states` is not touched. -/
def start (db : DB) (sess : Option Session) : NavState × Option Session :=
  (if (get_years_from_db db).isEmpty then .END else .CHOOSE_YEAR, sess)

/-- Is `needle` a prefix of some suffix of the haystack? -/
def infixOfAux (needle : List Char) : List Char → Bool
  | [] => needle.isEmpty
  | c :: cs => needle.isPrefixOf (c :: cs) || infixOfAux needle cs

/-- Python `sub in s` (substring containment). -/
def pyIn (sub s : String) : Bool := infixOfAux sub.toList s.toList

/-- Python `s.split()` (split on whitespace runs, dropping empties). -/
def pySplitWs (s : String) : List String :=
  ((splitPredAux Char.isWhitespace s.toList []).map (fun l => String.mk l)).filter
    (fun t => t != "")

/-- Python `int(s)` on a plain decimal token: optional sign then digits. -/
def pyIntStrict (s : String) : Option Int :=
  let core := fun (cs : List Char) (neg : Bool) =>
    if !cs.isEmpty && cs.all Char.isDigit then
      let v : Int := Int.ofNat (digitsToNat cs)
      some (if neg then -v else v)
    else none
  match trimChars s.toList with
  | '-' :: rest => core rest true
  | '+' :: rest => core rest false
  | rest => core rest false

/-- The exercise number `choose_exercise` extracts from the message text:
the text must contain the substring `"{year} задание "`, then the last
whitespace-separated token is parsed with `int(...)`; `none` models the
caught `ValueError`/`IndexError`. -/
def parseExerciseText (year : Int) (text : String) : Option Int :=
  if pyIn (toString year ++ " задание ") text then
    match (pySplitWs text).getLast? with
    | none => none
    | some w => pyIntStrict w
  else none

/-- Model of `QuizBot.choose_exercise` (source lines 414-462): no session behaves
as `start`; unparseable text re-prompts in CHOOSE_EXERCISE; a missing
task replies "Задание не найдено." and returns CHOOSE_EXERCISE with the
session unchanged; otherwise the task and its topics are stored and the
state becomes TASK. -/
def choose_exercise (db : DB) (sess : Option Session) (text : String) :
    NavState × Option Session :=
  match sess with
  | none => start db none
  | some st =>
    match parseExerciseText st.year text with
    | none => (.CHOOSE_EXERCISE, some st)
    | some exc =>
      match get_tasks_for_year_and_exercise db st.year exc with
      | [] => (.CHOOSE_EXERCISE, some st)
      | t :: _ =>
        let topics := topicsForYearExc db st.year exc
        (.TASK, some { year := st.year, exercises := st.exercises,
                       current_task := some t, current_topics := some topics })

/-- Model of `QuizBot.back_to_exercises`: with a session (which always carries
`year` and `exercises`) it re-lists the exercises and returns
CHOOSE_EXERCISE leaving the session untouched; without one it behaves as
`start`. -/
def back_to_exercises (db : DB) (sess : Option Session) :
    NavState × Option Session :=
  match sess with
  | none => start db none
  | some st => (.CHOOSE_EXERCISE, some st)

/-- Button labels of the source. -/
def BTN_START : String := "Начать"

/-- Back-to-year button label. -/
def BTN_BACK_TO_YEAR : String := "К выбору года"

/-- Back-to-exercise-list button label. -/
def BTN_BACK_TO_EXERCISES : String := "К выбору задач"

/-- Hint button label. -/
def BTN_HINT : String := "Подсказка"

/-- Answer button label. -/
def BTN_ANSWER : String := "Ответ"

/-- Related-by-topic button label. -/
def BTN_TOPIC_EXERCISES : String := "Задачи по теме"

/-- What the main ConversationHandler does with a plain text message in
state HINT. -/
inductive HintStep where
  | showAnswer
  | backToExercises
  | backToYear
  | fallbackStart
  | fallbackCancel
  | unhandled
deriving DecidableEq, Repr

/-- The HINT-state dispatch of `main` (source lines 752-756) followed by
the conversation fallbacks (765-766); any other plain text matches no
handler and is ignored, leaving the conversation in HINT. -/
def hint_dispatch (text : String) : HintStep :=
  if text = BTN_ANSWER then .showAnswer
  else if text = BTN_BACK_TO_EXERCISES then .backToExercises
  else if text = BTN_BACK_TO_YEAR then .backToYear
  else if text = BTN_START then .fallbackStart
  else if text = "Отмена" || text = "Cancel" then .fallbackCancel
  else .unhandled

/-- Does `o` count as "the Task row of the pair (y, e)": it joins to a
`years` row holding `y` and its exercise number is `e`. -/
def taskRowForPair (db : DB) (y e : Int) (o : Olympiad) : Bool :=
  olympYearIs db o y && o.excercise == e

/-- Well-formedness the SQLite schema guarantees for `years`: ids unique
(primary key), year values unique (`UNIQUE`), ids below the sequence. -/
def YearsWf (db : DB) : Prop :=
  (db.years.map Prod.fst).Nodup ∧ (db.years.map Prod.snd).Nodup ∧
  ∀ p ∈ db.years, p.1 < db.nextYearId

instance (db : DB) : Decidable (YearsWf db) := by
  unfold YearsWf; infer_instance

/-- A source row the loop accepts: non-blank, both numbers parse, the
truthiness check of line 162 passes and the topic split is non-empty. -/
structure RowOk (h : List String) (row : List CellVal) (y e : Int) : Prop where
  nonblank : rowNonBlank h row = true
  yr : parseNumCell (reqCell h row "Year") = .ok y
  ex : parseNumCell (reqCell h row "Excercise") = .ok e
  checks : (y != 0 && e != 0 && truthy (reqCell h row "Topic") &&
            (truthy (reqCell h row "Task") || optTruthy (getPic h row "Task_picture")) &&
            (truthy (reqCell h row "Hint") || optTruthy (getPic h row "Hint_picture")) &&
            (truthy (reqCell h row "Answer") || optTruthy (getPic h row "Answer_picture"))) = true
  tops : splitTopics (reqCell h row "Topic") ≠ []

/-- Increment of the skip counter. -/
def bumpSkip (st : LoadState) : LoadState := { st with skipped := st.skipped + 1 }

/-- Two successive append-mode ingestion runs, each loading a one-row
bundle, starting from `db` (the "ingest the same pair twice" scenario). -/
def appendIngestTwice (h : List String) (r1 r2 : List CellVal) (db : DB) : DB :=
  (parse_excel_and_images ⟨h, [r2]⟩ false
    (parse_excel_and_images ⟨h, [r1]⟩ false db).2.db).2.db

/-- The standard header row of a bundle (required columns only). -/
def H0 : List String := ["Year", "Excercise", "Topic", "Task", "Hint", "Answer"]

/-- First load of the pair (2020, 1). -/
def rowP1 : List CellVal :=
  [.vint 2020, .vint 1, .vstr "T", .vstr "first task", .vstr "first hint",
   .vstr "first answer"]

/-- Second load of the same pair (2020, 1), with different fields. -/
def rowP2 : List CellVal :=
  [.vint 2020, .vint 1, .vstr "T", .vstr "second task", .vstr "second hint",
   .vstr "second answer"]

/-- Task A of the topic-overlap example: year 2020, exercise 1,
topics X and Y. -/
def rowA : List CellVal :=
  [.vint 2020, .vint 1, .vstr "X, Y", .vstr "task A", .vstr "hint A",
   .vstr "answer A"]

/-- Task B of the topic-overlap example: year 2020, exercise 2,
topics Y and Z. -/
def rowB : List CellVal :=
  [.vint 2020, .vint 2, .vstr "Y, Z", .vstr "task B", .vstr "hint B",
   .vstr "answer B"]

/-- The store after replace-ingesting the A/B bundle into a fresh store:
two tasks in year 2020, topics X/Y/Z, four associations. -/
def dbC6 : DB := (parse_excel_and_images ⟨H0, [rowA, rowB]⟩ true emptyDB).2.db

/-- A row whose Task cell is the literal string "none" with no task
picture: the raw truthiness check passes, `_clean_value` then erases it. -/
def rowC4 : List CellVal :=
  [.vint 2020, .vint 1, .vstr "T", .vstr "none", .vstr "h", .vstr "a"]

/-- The store after ingesting only `rowC4`. -/
def dbC4 : DB := (parse_excel_and_images ⟨H0, [rowC4]⟩ true emptyDB).2.db

/-- A session as `choose_year` creates it for year 2020. -/
def sess0 : Session := ⟨2020, [1, 2], none, none⟩

/-- A valid row unrelated to the malformed one of the skip claims. -/
def rowGood : List CellVal :=
  [.vint 2021, .vint 3, .vstr "G", .vstr "g task", .vstr "g hint",
   .vstr "g answer"]

/-- A row whose Year cell is the non-numeric string "abc". -/
def rowBadYear : List CellVal :=
  [.vstr "abc", .vint 1, .vstr "T", .vstr "t", .vstr "h", .vstr "a"]

/-- A row whose Year cell holds the integer 0 (parses fine, but the
truthiness check of line 162 treats 0 as missing data). -/
def rowZeroYear : List CellVal :=
  [.vint 0, .vint 1, .vstr "T", .vstr "t", .vstr "h", .vstr "a"]

/-- A row whose Excercise cell holds the integer 0. -/
def rowZeroExc : List CellVal :=
  [.vint 2020, .vint 0, .vstr "T", .vstr "t", .vstr "h", .vstr "a"]

/-- A row with an empty (None) Task cell and no task picture. -/
def rowEmptyTask : List CellVal :=
  [.vint 2020, .vint 1, .vstr "T", .vnone, .vstr "h", .vstr "a"]

/-- A header row missing the required Topic column. -/
def H0noTopic : List String := ["Year", "Excercise", "Task", "Hint", "Answer"]

/-- A row whose Year cell is the string "inf": `float("inf")` succeeds,
`int(inf)` raises an uncaught `OverflowError` aborting the whole load. -/
def rowInf : List CellVal :=
  [.vstr "inf", .vint 1, .vstr "T", .vstr "t", .vstr "h", .vstr "a"]

/-- The loop state after ingesting `rowGood` into a fresh store. -/
def stGood : LoadState :=
  ⟨⟨[(1, 2021)], [(1, "G")],
    [⟨1, 1, 3, "g task", none, "g hint", none, "g answer", none⟩],
    [(1, 1)], 2, 2, 2⟩, [2021], ["G"], 1, 0⟩

/-! Helper lemmas: which fields each store operation leaves untouched. -/

theorem insertOrIgnoreYear_olympiads (db : DB) (y : Int) :
    (insertOrIgnoreYear db y).olympiads = db.olympiads := by
  unfold insertOrIgnoreYear; split <;> rfl

theorem insertOrIgnoreYear_nextOlympiadId (db : DB) (y : Int) :
    (insertOrIgnoreYear db y).nextOlympiadId = db.nextOlympiadId := by
  unfold insertOrIgnoreYear; split <;> rfl

theorem insertOrIgnoreTopic_years (db : DB) (n : String) :
    (insertOrIgnoreTopic db n).years = db.years := by
  unfold insertOrIgnoreTopic; split <;> rfl

theorem insertOrIgnoreTopic_olympiads (db : DB) (n : String) :
    (insertOrIgnoreTopic db n).olympiads = db.olympiads := by
  unfold insertOrIgnoreTopic; split <;> rfl

theorem insertOrIgnoreTopic_nextOlympiadId (db : DB) (n : String) :
    (insertOrIgnoreTopic db n).nextOlympiadId = db.nextOlympiadId := by
  unfold insertOrIgnoreTopic; split <;> rfl

theorem insertOrIgnoreOlympiadTopic_years (db : DB) (oid tid : Nat) :
    (insertOrIgnoreOlympiadTopic db oid tid).years = db.years := by
  unfold insertOrIgnoreOlympiadTopic; split <;> rfl

theorem insertOrIgnoreOlympiadTopic_olympiads (db : DB) (oid tid : Nat) :
    (insertOrIgnoreOlympiadTopic db oid tid).olympiads = db.olympiads := by
  unfold insertOrIgnoreOlympiadTopic; split <;> rfl

theorem foldl_pres {β γ : Type} (f : DB → β → DB) (g : DB → γ)
    (hf : ∀ d b, g (f d b) = g d) :
    ∀ (l : List β) (d : DB), g (l.foldl f d) = g d := by
  intro l
  induction l with
  | nil => intro d; rfl
  | cons b bs ih => intro d; rw [List.foldl_cons, ih, hf]

theorem foldl_topics_years (ts : List String) (db : DB) :
    (ts.foldl insertOrIgnoreTopic db).years = db.years :=
  foldl_pres insertOrIgnoreTopic DB.years insertOrIgnoreTopic_years ts db

theorem foldl_topics_olympiads (ts : List String) (db : DB) :
    (ts.foldl insertOrIgnoreTopic db).olympiads = db.olympiads :=
  foldl_pres insertOrIgnoreTopic DB.olympiads insertOrIgnoreTopic_olympiads ts db

theorem foldl_topics_nextOlympiadId (ts : List String) (db : DB) :
    (ts.foldl insertOrIgnoreTopic db).nextOlympiadId = db.nextOlympiadId :=
  foldl_pres insertOrIgnoreTopic DB.nextOlympiadId
    insertOrIgnoreTopic_nextOlympiadId ts db

theorem foldl_assoc_years (ts : List String) (oid : Nat) (db : DB) :
    (ts.foldl
      (fun d tname => insertOrIgnoreOlympiadTopic d oid (findTopicIdD d tname))
      db).years = db.years :=
  foldl_pres _ DB.years
    (fun d b => insertOrIgnoreOlympiadTopic_years d oid (findTopicIdD d b)) ts db

theorem foldl_assoc_olympiads (ts : List String) (oid : Nat) (db : DB) :
    (ts.foldl
      (fun d tname => insertOrIgnoreOlympiadTopic d oid (findTopicIdD d tname))
      db).olympiads = db.olympiads :=
  foldl_pres _ DB.olympiads
    (fun d b => insertOrIgnoreOlympiadTopic_olympiads d oid (findTopicIdD d b)) ts db

/-! Helper lemmas: the shape of `ingestRow`. -/

theorem ingestRow_years (db : DB) (y e : Int) (ts : List String)
    (tS : String) (tp : Option String) (hS : String) (hp : Option String)
    (aS : String) (ap : Option String) :
    (ingestRow db y e ts tS tp hS hp aS ap).years =
      (insertOrIgnoreYear db y).years := by
  unfold ingestRow insertOrReplaceOlympiad
  rw [foldl_assoc_years]
  exact foldl_topics_years ts (insertOrIgnoreYear db y)

theorem ingestRow_olympiads (db : DB) (y e : Int) (ts : List String)
    (tS : String) (tp : Option String) (hS : String) (hp : Option String)
    (aS : String) (ap : Option String) :
    (ingestRow db y e ts tS tp hS hp aS ap).olympiads =
      db.olympiads.filter
        (fun o => !(o.year_id == findYearIdD (insertOrIgnoreYear db y) y &&
                    o.excercise == e)) ++
      [⟨db.nextOlympiadId, findYearIdD (insertOrIgnoreYear db y) y, e,
        tS, tp, hS, hp, aS, ap⟩] := by
  unfold ingestRow insertOrReplaceOlympiad
  rw [foldl_assoc_olympiads]
  rw [foldl_topics_olympiads, foldl_topics_nextOlympiadId]
  rw [insertOrIgnoreYear_olympiads, insertOrIgnoreYear_nextOlympiadId]

/-! Helper lemmas: the `years` table after an `INSERT OR IGNORE`. -/

theorem insertOrIgnoreYear_of_mem (db : DB) (y : Int)
    (hmem : ∃ p ∈ db.years, p.2 = y) : insertOrIgnoreYear db y = db := by
  unfold insertOrIgnoreYear
  rw [if_pos]
  rw [List.any_eq_true]
  obtain ⟨p, hp, hpy⟩ := hmem
  exact ⟨p, hp, by simp [hpy]⟩

theorem insertOrIgnoreYear_mem_or (db : DB) (y : Int) :
    ∀ p ∈ (insertOrIgnoreYear db y).years,
      p ∈ db.years ∨ p = (db.nextYearId, y) := by
  intro p hp
  unfold insertOrIgnoreYear at hp
  split at hp
  · exact Or.inl hp
  · rcases List.mem_append.mp hp with h | h
    · exact Or.inl h
    · exact Or.inr (List.mem_singleton.mp h)

theorem insertOrIgnoreYear_wf (db : DB) (y : Int) (hwf : YearsWf db) :
    YearsWf (insertOrIgnoreYear db y) := by
  obtain ⟨hfst, hsnd, hbound⟩ := hwf
  unfold insertOrIgnoreYear
  split
  · exact ⟨hfst, hsnd, hbound⟩
  · rename_i hany
    have hnoty : ∀ p ∈ db.years, p.2 ≠ y := by
      intro p hp hcon
      exact hany (List.any_eq_true.mpr ⟨p, hp, by simp [hcon]⟩)
    refine ⟨?_, ?_, ?_⟩
    · rw [List.map_append, List.nodup_append]
      refine ⟨hfst, List.nodup_singleton _, ?_⟩
      intro a ha hb
      simp only [List.map_cons, List.map_nil, List.mem_singleton] at hb
      obtain ⟨p, hp, hpa⟩ := List.mem_map.mp ha
      have := hbound p hp
      omega
    · rw [List.map_append, List.nodup_append]
      refine ⟨hsnd, List.nodup_singleton _, ?_⟩
      intro a ha hb
      simp only [List.map_cons, List.map_nil, List.mem_singleton] at hb
      obtain ⟨p, hp, hpa⟩ := List.mem_map.mp ha
      exact hnoty p hp (by rw [hpa, hb])
    · intro p hp
      show p.1 < db.nextYearId + 1
      rcases List.mem_append.mp hp with h | h
      · have := hbound p h; omega
      · rw [List.mem_singleton.mp h]; omega

theorem yearPair_mem (db : DB) (y : Int) :
    (findYearIdD (insertOrIgnoreYear db y) y, y) ∈ (insertOrIgnoreYear db y).years := by
  have hex : ∃ p ∈ (insertOrIgnoreYear db y).years, (fun q => q.2 == y) p = true := by
    unfold insertOrIgnoreYear
    split
    · rename_i hany
      obtain ⟨p, hp, hpy⟩ := List.any_eq_true.mp hany
      exact ⟨p, hp, hpy⟩
    · exact ⟨(db.nextYearId, y), List.mem_append.mpr (Or.inr (List.mem_singleton.mpr rfl)),
        by simp⟩
  obtain ⟨p, hfind⟩ : ∃ p,
      (insertOrIgnoreYear db y).years.find? (fun q => q.2 == y) = some p := by
    cases hf : (insertOrIgnoreYear db y).years.find? (fun q => q.2 == y) with
    | none =>
      obtain ⟨p, hp, hpy⟩ := hex
      exact absurd hpy (by simpa using List.find?_eq_none.mp hf p hp)
    | some p => exact ⟨p, rfl⟩
  have hval : p.2 = y := by simpa using List.find?_some hfind
  have hmem : p ∈ (insertOrIgnoreYear db y).years := List.mem_of_find?_eq_some hfind
  have hid : findYearIdD (insertOrIgnoreYear db y) y = p.1 := by
    unfold findYearIdD findYearId
    rw [hfind]
    rfl
  rw [hid]
  have : (p.1, y) = p := by
    rw [← hval]
  rw [this]
  exact hmem

/-! Helper lemma: with unique year values, joining on the year value is
the same as comparing the foreign key. -/

theorem olympYearIs_eq (ys : List (Nat × Int)) (hsnd : (ys.map Prod.snd).Nodup)
    (yid : Nat) (y : Int) (hmem : (yid, y) ∈ ys) (db : DB)
    (hdb : db.years = ys) (o : Olympiad) :
    olympYearIs db o y = (o.year_id == yid) := by
  unfold olympYearIs
  rw [hdb]
  cases hcase : (o.year_id == yid) with
  | true =>
    have hyid : o.year_id = yid := by simpa using hcase
    rw [List.any_eq_true]
    exact ⟨(yid, y), hmem, by simp [hyid]⟩
  | false =>
    have hne : o.year_id ≠ yid := by simpa using hcase
    rw [List.any_eq_false]
    intro p hp
    simp only [Bool.and_eq_true, beq_iff_eq, not_and]
    intro h1 h2
    have hpeq : p = (yid, y) :=
      List.inj_on_of_nodup_map hsnd hp hmem (by simpa using h2)
    rw [hpeq] at h1
    exact hne h1.symm

/-! Helper lemmas: behaviour of one loop iteration. -/

theorem rowEffect_badValueYear (h : List String) (db : DB)
    (row : List CellVal) (hb : rowNonBlank h row = true)
    (hy : parseNumCell (reqCell h row "Year") = .badValue) :
    rowEffect h db row = .skip := by
  simp [rowEffect, hb, hy]

theorem rowEffect_overflowYear (h : List String) (db : DB)
    (row : List CellVal) (hb : rowNonBlank h row = true)
    (hy : parseNumCell (reqCell h row "Year") = .overflow) :
    rowEffect h db row = .abort := by
  simp [rowEffect, hb, hy]

theorem processRow_skip_badYear (h : List String) (st : LoadState)
    (row : List CellVal) (hb : rowNonBlank h row = true)
    (hy : parseNumCell (reqCell h row "Year") = .badValue) :
    processRow h st row = bumpSkip st := by
  unfold processRow
  rw [rowEffect_badValueYear h st.db row hb hy]
  rfl

theorem processRow_skip_zeroYear (h : List String) (st : LoadState)
    (row : List CellVal) (hb : rowNonBlank h row = true)
    (hy : parseNumCell (reqCell h row "Year") = .ok 0)
    (hex : parseNumCell (reqCell h row "Excercise") ≠ .overflow) :
    processRow h st row = bumpSkip st := by
  have hek : rowEffect h st.db row = .skip := by
    cases hex' : parseNumCell (reqCell h row "Excercise") with
    | ok e => simp [rowEffect, hb, hy, hex']
    | badValue => simp [rowEffect, hb, hy, hex']
    | overflow => exact absurd hex' hex
  unfold processRow
  rw [hek]
  rfl

theorem processRow_skip_zeroExc (h : List String) (st : LoadState)
    (row : List CellVal) (y : Int) (hb : rowNonBlank h row = true)
    (hy : parseNumCell (reqCell h row "Year") = .ok y)
    (hex : parseNumCell (reqCell h row "Excercise") = .ok 0) :
    processRow h st row = bumpSkip st := by
  have hek : rowEffect h st.db row = .skip := by
    simp [rowEffect, hb, hy, hex]
  unfold processRow
  rw [hek]
  rfl

theorem processRow_skip_emptyField (h : List String) (st : LoadState)
    (row : List CellVal) (y e : Int) (hb : rowNonBlank h row = true)
    (hy : parseNumCell (reqCell h row "Year") = .ok y)
    (hex : parseNumCell (reqCell h row "Excercise") = .ok e)
    (hfield :
      (truthy (reqCell h row "Task") = false ∧
        optTruthy (getPic h row "Task_picture") = false) ∨
      (truthy (reqCell h row "Hint") = false ∧
        optTruthy (getPic h row "Hint_picture") = false) ∨
      (truthy (reqCell h row "Answer") = false ∧
        optTruthy (getPic h row "Answer_picture") = false)) :
    processRow h st row = bumpSkip st := by
  have hek : rowEffect h st.db row = .skip := by
    rcases hfield with ⟨h1, h2⟩ | ⟨h1, h2⟩ | ⟨h1, h2⟩ <;>
      simp [rowEffect, hb, hy, hex, h1, h2]
  unfold processRow
  rw [hek]
  rfl

theorem rowEffect_ok (h : List String) (row : List CellVal) (y e : Int)
    (hk : RowOk h row y e) (db : DB) :
    rowEffect h db row = .ins
      (ingestRow db y e (splitTopics (reqCell h row "Topic"))
        (clean_value (reqCell h row "Task")) (getPic h row "Task_picture")
        (clean_value (reqCell h row "Hint")) (getPic h row "Hint_picture")
        (clean_value (reqCell h row "Answer")) (getPic h row "Answer_picture"))
      y (splitTopics (reqCell h row "Topic")) := by
  simp [rowEffect, hk.nonblank, hk.yr, hk.ex, hk.checks, hk.tops]

theorem processRow_ok (h : List String) (row : List CellVal) (y e : Int)
    (hk : RowOk h row y e) (st : LoadState) :
    processRow h st row =
      ⟨ingestRow st.db y e (splitTopics (reqCell h row "Topic"))
        (clean_value (reqCell h row "Task")) (getPic h row "Task_picture")
        (clean_value (reqCell h row "Hint")) (getPic h row "Hint_picture")
        (clean_value (reqCell h row "Answer")) (getPic h row "Answer_picture"),
       addNew y st.inserted_years,
       addTopics st.inserted_topics (splitTopics (reqCell h row "Topic")),
       st.inserted + 1, st.skipped⟩ := by
  unfold processRow
  rw [rowEffect_ok h row y e hk st.db]

theorem processRow_bumpSkip (h : List String) (st : LoadState)
    (row : List CellVal) :
    processRow h (bumpSkip st) row = bumpSkip (processRow h st row) := by
  have hdb : (bumpSkip st).db = st.db := rfl
  unfold processRow
  rw [hdb]
  cases rowEffect h st.db row <;> rfl

theorem processRows_bumpSkip (h : List String) (rows : List (List CellVal)) :
    ∀ st, processRows h (bumpSkip st) rows =
      Option.map bumpSkip (processRows h st rows) := by
  induction rows with
  | nil => intro st; rfl
  | cons r rs ih =>
    intro st
    have hdb : (bumpSkip st).db = st.db := rfl
    simp only [processRows, hdb]
    by_cases hab : rowEffect h st.db r = .abort
    · simp [hab]
    · simp only [hab, if_false, processRow_bumpSkip]
      exact ih (processRow h st r)

theorem processRows_bind (h : List String) (l1 l2 : List (List CellVal)) :
    ∀ st, processRows h st (l1 ++ l2) =
      (processRows h st l1).bind (fun s => processRows h s l2) := by
  induction l1 with
  | nil => intro st; rfl
  | cons r rs ih =>
    intro st
    simp only [List.cons_append, processRows]
    by_cases hab : rowEffect h st.db r = .abort
    · simp [hab]
    · simp only [hab, if_false]
      exact ih (processRow h st r)

/-! Helper lemmas: inversion of an accepted row, and preservation of the
"no zero year / zero exercise" invariant. -/

theorem rowEffect_ins_inv (h : List String) (db : DB) (row : List CellVal)
    (db' : DB) (y : Int) (ts : List String)
    (heq : rowEffect h db row = .ins db' y ts) :
    ∃ e : Int, y ≠ 0 ∧ e ≠ 0 ∧
      db' = ingestRow db y e ts (clean_value (reqCell h row "Task"))
        (getPic h row "Task_picture") (clean_value (reqCell h row "Hint"))
        (getPic h row "Hint_picture") (clean_value (reqCell h row "Answer"))
        (getPic h row "Answer_picture") := by
  unfold rowEffect at heq
  dsimp only at heq
  split at heq
  · exact absurd heq (by simp)
  split at heq
  · exact absurd heq (by simp)
  · exact absurd heq (by simp)
  split at heq
  · exact absurd heq (by simp)
  · exact absurd heq (by simp)
  split at heq
  · exact absurd heq (by simp)
  split at heq
  · exact absurd heq (by simp)
  rename_i hnb x1 year heqY x2 exc heqE hcond htops
  have hc : (year != 0 && exc != 0 && truthy (reqCell h row "Topic") &&
      (truthy (reqCell h row "Task") || optTruthy (getPic h row "Task_picture")) &&
      (truthy (reqCell h row "Hint") || optTruthy (getPic h row "Hint_picture")) &&
      (truthy (reqCell h row "Answer") || optTruthy (getPic h row "Answer_picture")))
      = true := by
    cases hb : (year != 0 && exc != 0 && truthy (reqCell h row "Topic") &&
      (truthy (reqCell h row "Task") || optTruthy (getPic h row "Task_picture")) &&
      (truthy (reqCell h row "Hint") || optTruthy (getPic h row "Hint_picture")) &&
      (truthy (reqCell h row "Answer") || optTruthy (getPic h row "Answer_picture")))
    · exact absurd hb hcond
    · rfl
  simp only [Bool.and_eq_true, bne_iff_ne] at hc
  injection heq with h1 h2 h3
  refine ⟨exc, ?_, ?_, ?_⟩
  · rw [← h2]; exact hc.1.1.1.1.1
  · exact hc.1.1.1.1.2
  · rw [← h1, ← h2, ← h3]

theorem ingestRow_no_zero (db : DB) (y e : Int) (hy : y ≠ 0) (he : e ≠ 0)
    (ts : List String) (tS : String) (tp : Option String) (hS : String)
    (hp : Option String) (aS : String) (ap : Option String)
    (hole : ∀ o ∈ db.olympiads, o.excercise ≠ 0)
    (hyr : ∀ p ∈ db.years, p.2 ≠ 0) :
    (∀ o ∈ (ingestRow db y e ts tS tp hS hp aS ap).olympiads, o.excercise ≠ 0) ∧
    (∀ p ∈ (ingestRow db y e ts tS tp hS hp aS ap).years, p.2 ≠ 0) := by
  constructor
  · rw [ingestRow_olympiads]
    intro o ho
    rcases List.mem_append.mp ho with hmem | hmem
    · exact hole o (List.mem_filter.mp hmem).1
    · rw [List.mem_singleton.mp hmem]; exact he
  · rw [ingestRow_years]
    intro p hp'
    rcases insertOrIgnoreYear_mem_or db y p hp' with hmem | hmem
    · exact hyr p hmem
    · rw [hmem]; exact hy

theorem processRow_no_zero (h : List String) (st : LoadState)
    (row : List CellVal)
    (hole : ∀ o ∈ st.db.olympiads, o.excercise ≠ 0)
    (hyr : ∀ p ∈ st.db.years, p.2 ≠ 0) :
    (∀ o ∈ (processRow h st row).db.olympiads, o.excercise ≠ 0) ∧
    (∀ p ∈ (processRow h st row).db.years, p.2 ≠ 0) := by
  unfold processRow
  cases hek : rowEffect h st.db row with
  | blank => exact ⟨hole, hyr⟩
  | skip => exact ⟨hole, hyr⟩
  | abort => exact ⟨hole, hyr⟩
  | ins db' y ts =>
    obtain ⟨e, hy, he, hdb⟩ := rowEffect_ins_inv h st.db row db' y ts hek
    rw [hdb]
    exact ingestRow_no_zero st.db y e hy he ts _ _ _ _ _ _ hole hyr

theorem processRows_no_zero (h : List String) (rows : List (List CellVal)) :
    ∀ (st final : LoadState), processRows h st rows = some final →
      (∀ o ∈ st.db.olympiads, o.excercise ≠ 0) →
      (∀ p ∈ st.db.years, p.2 ≠ 0) →
      (∀ o ∈ final.db.olympiads, o.excercise ≠ 0) ∧
      (∀ p ∈ final.db.years, p.2 ≠ 0) := by
  induction rows with
  | nil =>
    intro st final hfin hole hyr
    cases hfin
    exact ⟨hole, hyr⟩
  | cons r rs ih =>
    intro st final hfin hole hyr
    simp only [processRows] at hfin
    by_cases hab : rowEffect h st.db r = .abort
    · rw [if_pos hab] at hfin
      exact absurd hfin (by simp)
    · rw [if_neg hab] at hfin
      have hstep := processRow_no_zero h st r hole hyr
      exact ih (processRow h st r) final hfin hstep.1 hstep.2

/-! Helper lemmas: `sortDedup` keeps exactly the members and yields a
strictly ascending list. -/

theorem mem_insertSortedNoDup (x a : Int) (l : List Int) :
    a ∈ insertSortedNoDup x l ↔ a = x ∨ a ∈ l := by
  induction l with
  | nil => simp [insertSortedNoDup]
  | cons y ys ih =>
    unfold insertSortedNoDup
    split
    · simp [or_assoc]
    · split
      · rename_i hlt heq
        subst heq
        simp only [List.mem_cons]
        tauto
      · simp only [List.mem_cons, ih]
        tauto

theorem pairwise_insertSortedNoDup (x : Int) (l : List Int)
    (hp : l.Pairwise (· < ·)) :
    (insertSortedNoDup x l).Pairwise (· < ·) := by
  induction l with
  | nil => simp [insertSortedNoDup]
  | cons y ys ih =>
    rw [List.pairwise_cons] at hp
    unfold insertSortedNoDup
    split
    · rename_i hlt
      rw [List.pairwise_cons]
      refine ⟨?_, List.pairwise_cons.mpr hp⟩
      intro b hb
      rcases List.mem_cons.mp hb with hb | hb
      · rw [hb]; exact hlt
      · exact lt_trans hlt (hp.1 b hb)
    · split
      · exact List.pairwise_cons.mpr hp
      · rename_i hnlt hne
        have hyx : y < x := by omega
        rw [List.pairwise_cons]
        refine ⟨?_, ih hp.2⟩
        intro b hb
        rcases (mem_insertSortedNoDup x b ys).mp hb with hb | hb
        · rw [hb]; exact hyx
        · exact hp.1 b hb

theorem mem_sortDedup (l : List Int) (a : Int) : a ∈ sortDedup l ↔ a ∈ l := by
  induction l with
  | nil => simp [sortDedup]
  | cons x xs ih =>
    show a ∈ insertSortedNoDup x (sortDedup xs) ↔ _
    rw [mem_insertSortedNoDup, ih]
    simp

theorem pairwise_sortDedup (l : List Int) : (sortDedup l).Pairwise (· < ·) := by
  induction l with
  | nil => simp [sortDedup]
  | cons x xs ih => exact pairwise_insertSortedNoDup x (sortDedup xs) ih

/-! Helper lemmas: the store after ingesting the same (year, exercise)
pair twice. -/

theorem filter_not_filter {α : Type} (p : α → Bool) (l : List α) :
    List.filter p (List.filter (fun a => !(p a)) l) = [] := by
  rw [List.filter_eq_nil_iff]
  intro a ha
  have hmem := (List.mem_filter.mp ha).2
  simp only [Bool.not_eq_true'] at hmem
  simp [hmem]

theorem parse_single_db (h : List String) (r : List CellVal) (db : DB)
    (hh : (requiredCols.all (fun c => h.contains c)) = true)
    (hnab : rowEffect h db r ≠ .abort) :
    (parse_excel_and_images ⟨h, [r]⟩ false db).2.db =
      (processRow h (initState db) r).db := by
  have hno : ¬ ∃ x ∈ requiredCols, x ∉ h := by
    rintro ⟨x, hx, hnx⟩
    exact hnx (by simpa using List.all_eq_true.mp hh x hx)
  have hdb : (initState db).db = db := rfl
  have hrun : processRows h (initState db) [r] =
      some (processRow h (initState db) r) := by
    simp only [processRows, hdb]
    rw [if_neg hnab]
  unfold parse_excel_and_images
  simp [hh, hno, hrun]

theorem double_ingest (db : DB) (hwf : YearsWf db) (y e : Int)
    (ts1 ts2 : List String)
    (t1 : String) (p1 : Option String) (u1 : String) (q1 : Option String)
    (a1 : String) (b1 : Option String)
    (t2 : String) (p2 : Option String) (u2 : String) (q2 : Option String)
    (a2 : String) (b2 : Option String) :
    ∃ o : Olympiad,
      ((ingestRow (ingestRow db y e ts1 t1 p1 u1 q1 a1 b1) y e ts2 t2 p2 u2
          q2 a2 b2).olympiads.filter
        (taskRowForPair
          (ingestRow (ingestRow db y e ts1 t1 p1 u1 q1 a1 b1) y e ts2 t2 p2 u2
            q2 a2 b2) y e)) = [o] ∧
      o.task = t2 ∧ o.task_picture = p2 ∧ o.hint = u2 ∧ o.hint_picture = q2 ∧
      o.answer = a2 ∧ o.answer_picture = b2 ∧ o.excercise = e := by
  set A := insertOrIgnoreYear db y with hA
  set yid := findYearIdD A y with hyid
  set db1 := ingestRow db y e ts1 t1 p1 u1 q1 a1 b1 with hdb1
  set db2 := ingestRow db1 y e ts2 t2 p2 u2 q2 a2 b2 with hdb2
  have hmemA : (yid, y) ∈ A.years := yearPair_mem db y
  have hAwf : YearsWf A := insertOrIgnoreYear_wf db y hwf
  have h1y : db1.years = A.years := by
    rw [hdb1, ingestRow_years, ← hA]
  have hpres : insertOrIgnoreYear db1 y = db1 :=
    insertOrIgnoreYear_of_mem db1 y ⟨(yid, y), by rw [h1y]; exact hmemA, rfl⟩
  have h2yid : findYearIdD (insertOrIgnoreYear db1 y) y = yid := by
    rw [hpres]
    show (findYearId db1 y).getD 0 = yid
    unfold findYearId
    rw [h1y]
    rfl
  have h1o : db1.olympiads =
      db.olympiads.filter (fun o => !(o.year_id == yid && o.excercise == e)) ++
        [⟨db.nextOlympiadId, yid, e, t1, p1, u1, q1, a1, b1⟩] := by
    rw [hdb1, ingestRow_olympiads, ← hA, ← hyid]
  have h2o : db2.olympiads =
      db1.olympiads.filter (fun o => !(o.year_id == yid && o.excercise == e)) ++
        [⟨db1.nextOlympiadId, yid, e, t2, p2, u2, q2, a2, b2⟩] := by
    rw [hdb2, ingestRow_olympiads, h2yid]
  have h2y : db2.years = A.years := by
    rw [hdb2, ingestRow_years, hpres, h1y]
  have hchar : ∀ o, taskRowForPair db2 y e o =
      (o.year_id == yid && o.excercise == e) := by
    intro o
    unfold taskRowForPair
    rw [olympYearIs_eq A.years hAwf.2.1 yid y hmemA db2 h2y o]
  have hfun : taskRowForPair db2 y e =
      fun o => (o.year_id == yid && o.excercise == e) := funext hchar
  refine ⟨⟨db1.nextOlympiadId, yid, e, t2, p2, u2, q2, a2, b2⟩, ?_,
    rfl, rfl, rfl, rfl, rfl, rfl, rfl⟩
  rw [hfun, h2o, h1o]
  rw [List.filter_append, filter_not_filter]
  simp

/-! Helper lemmas: running the pipeline when the header check passes. -/

theorem parse_some (sheet : Sheet) (replace : Bool) (db : DB)
    (final : LoadState)
    (hh : (requiredCols.all (fun c => sheet.headers.contains c)) = true)
    (hrows : sheet.rows ≠ [])
    (hrun : processRows sheet.headers
      (initState (if replace then wipeDB db else db)) sheet.rows = some final) :
    parse_excel_and_images sheet replace db = (true, final) := by
  have hno : ¬ ∃ x ∈ requiredCols, x ∉ sheet.headers := by
    rintro ⟨x, hx, hnx⟩
    exact hnx (by simpa using List.all_eq_true.mp hh x hx)
  unfold parse_excel_and_images
  simp [hh, hno, hrows, hrun]

theorem parse_none (sheet : Sheet) (replace : Bool) (db : DB)
    (hh : (requiredCols.all (fun c => sheet.headers.contains c)) = true)
    (hrows : sheet.rows ≠ [])
    (hrun : processRows sheet.headers
      (initState (if replace then wipeDB db else db)) sheet.rows = none) :
    parse_excel_and_images sheet replace db = (false, initState db) := by
  have hno : ¬ ∃ x ∈ requiredCols, x ∉ sheet.headers := by
    rintro ⟨x, hx, hnx⟩
    exact hnx (by simpa using List.all_eq_true.mp hh x hx)
  unfold parse_excel_and_images
  simp [hh, hno, hrows, hrun]

/-! The claim theorems. -/

/-- C1: for every well-formed content store and every pair of accepted
rows supplying the same (year, exercise) pair, ingesting the pair twice
under append mode (two one-row bundles, no wipe) leaves exactly one Task
row for that pair, whose task/hint/answer fields and image references all
come from the second load: overwrite, no duplicate. -/
theorem claim_C1 (db : DB) (h : List String) (r1 r2 : List CellVal)
    (y e : Int) (hwf : YearsWf db)
    (hh : (requiredCols.all (fun c => h.contains c)) = true)
    (hk1 : RowOk h r1 y e) (hk2 : RowOk h r2 y e) :
    ∃ o : Olympiad,
      ((appendIngestTwice h r1 r2 db).olympiads.filter
        (taskRowForPair (appendIngestTwice h r1 r2 db) y e)) = [o] ∧
      o.task = clean_value (reqCell h r2 "Task") ∧
      o.task_picture = getPic h r2 "Task_picture" ∧
      o.hint = clean_value (reqCell h r2 "Hint") ∧
      o.hint_picture = getPic h r2 "Hint_picture" ∧
      o.answer = clean_value (reqCell h r2 "Answer") ∧
      o.answer_picture = getPic h r2 "Answer_picture" ∧
      o.excercise = e := by
  have hstep : appendIngestTwice h r1 r2 db =
      ingestRow (ingestRow db y e (splitTopics (reqCell h r1 "Topic"))
        (clean_value (reqCell h r1 "Task")) (getPic h r1 "Task_picture")
        (clean_value (reqCell h r1 "Hint")) (getPic h r1 "Hint_picture")
        (clean_value (reqCell h r1 "Answer")) (getPic h r1 "Answer_picture"))
        y e (splitTopics (reqCell h r2 "Topic"))
        (clean_value (reqCell h r2 "Task")) (getPic h r2 "Task_picture")
        (clean_value (reqCell h r2 "Hint")) (getPic h r2 "Hint_picture")
        (clean_value (reqCell h r2 "Answer")) (getPic h r2 "Answer_picture") := by
    unfold appendIngestTwice
    rw [parse_single_db h r1 db hh (by rw [rowEffect_ok h r1 y e hk1]; simp),
      processRow_ok h r1 y e hk1,
      parse_single_db h r2 _ hh (by rw [rowEffect_ok h r2 y e hk2]; simp),
      processRow_ok h r2 y e hk2]
    rfl
  rw [hstep]
  exact double_ingest db hwf y e _ _ _ _ _ _ _ _ _ _ _ _ _ _

/-- Witness for C1: the concrete pair (2020, 1) loaded twice into a fresh
store; the surviving row carries the second load's fields. -/
theorem claim_C1_witness :
    ∃ o : Olympiad,
      ((appendIngestTwice H0 rowP1 rowP2 emptyDB).olympiads.filter
        (taskRowForPair (appendIngestTwice H0 rowP1 rowP2 emptyDB) 2020 1)) = [o] ∧
      o.task = clean_value (reqCell H0 rowP2 "Task") ∧
      o.task_picture = getPic H0 rowP2 "Task_picture" ∧
      o.hint = clean_value (reqCell H0 rowP2 "Hint") ∧
      o.hint_picture = getPic H0 rowP2 "Hint_picture" ∧
      o.answer = clean_value (reqCell H0 rowP2 "Answer") ∧
      o.answer_picture = getPic H0 rowP2 "Answer_picture" ∧
      o.excercise = 1 :=
  claim_C1 emptyDB H0 rowP1 rowP2 2020 1 (by decide) (by decide)
    ⟨by decide, by decide, by decide, by decide, by decide⟩
    ⟨by decide, by decide, by decide, by decide, by decide⟩

/-- C2: a replace-mode run either fails with the store exactly as it was
-- whether it aborts before the loop (empty sheet, missing column) or
fails partway through it (an uncaught OverflowError from a row): the lone
commit sits after the whole loop, so the uncommitted wipe and inserts are
rolled back -- or it succeeds with contents identical to loading into a
wiped store, the prior contents never leaking into a successful replace. -/
theorem claim_C2 (sheet : Sheet) (db : DB) :
    ((parse_excel_and_images sheet true db).1 = false →
      (parse_excel_and_images sheet true db).2.db = db) ∧
    ((parse_excel_and_images sheet true db).1 = true →
      (parse_excel_and_images sheet true db).2.db =
        (parse_excel_and_images sheet true (wipeDB db)).2.db) := by
  unfold parse_excel_and_images
  split
  · exact ⟨fun _ => rfl, fun hcon => by simp at hcon⟩
  · split
    · exact ⟨fun _ => rfl, fun hcon => by simp at hcon⟩
    · dsimp only
      have hww : wipeDB (wipeDB db) = wipeDB db := rfl
      simp only [reduceIte, hww]
      cases hm : processRows sheet.headers (initState (wipeDB db)) sheet.rows with
      | none => exact ⟨fun _ => rfl, fun hcon => by simp at hcon⟩
      | some final => exact ⟨fun hcon => by simp at hcon, fun _ => rfl⟩

/-- Witness for C2: a replace run failing partway through the loop (the
second row's Year="inf" raises after the wipe and the first insert)
leaves a populated store untouched; a successful replace equals the run
on the wiped store. -/
theorem claim_C2_witness :
    (parse_excel_and_images ⟨H0, [rowGood, rowInf]⟩ true dbC6).2.db = dbC6 ∧
    (parse_excel_and_images ⟨H0, [rowA, rowB]⟩ true dbC4).2.db =
      (parse_excel_and_images ⟨H0, [rowA, rowB]⟩ true (wipeDB dbC4)).2.db :=
  ⟨(claim_C2 ⟨H0, [rowGood, rowInf]⟩ dbC6).1 (by decide),
   (claim_C2 ⟨H0, [rowA, rowB]⟩ dbC4).2 (by decide)⟩

/-- C3 (bug exhibit): `clear_database` on a store holding one task with
one topic association empties `years`, `topics` and `olympiads`, but the
`olympiad_topics` association row survives: the connection never runs
`PRAGMA foreign_keys = ON`, so the schema's `ON DELETE CASCADE` (and the
intent of a full reset) does not take effect. -/
theorem claim_C3_clear_leaves_assoc :
    (clear_database dbC4).years = [] ∧ (clear_database dbC4).topics = [] ∧
    (clear_database dbC4).olympiads = [] ∧
    (clear_database dbC4).olympiad_topics = [(1, 1)] ∧
    (clear_database dbC4).olympiad_topics ≠ [] := by decide

/-- C4 (amended): a row whose raw Task/Hint/Answer cell is Python-falsy
and which has no corresponding image is skipped (counted, never stored).
The check runs on the raw cells before `_clean_value`, so it does not
guarantee the stored invariant the original claim states. -/
theorem claim_C4 (h : List String) (st : LoadState) (row : List CellVal)
    (y e : Int) (hb : rowNonBlank h row = true)
    (hy : parseNumCell (reqCell h row "Year") = .ok y)
    (hex : parseNumCell (reqCell h row "Excercise") = .ok e)
    (hfield :
      (truthy (reqCell h row "Task") = false ∧
        optTruthy (getPic h row "Task_picture") = false) ∨
      (truthy (reqCell h row "Hint") = false ∧
        optTruthy (getPic h row "Hint_picture") = false) ∨
      (truthy (reqCell h row "Answer") = false ∧
        optTruthy (getPic h row "Answer_picture") = false)) :
    processRow h st row = bumpSkip st :=
  processRow_skip_emptyField h st row y e hb hy hex hfield

/-- Witness for C4: a row with a None Task cell and no task picture is
skipped. -/
theorem claim_C4_witness :
    processRow H0 (initState emptyDB) rowEmptyTask = bumpSkip (initState emptyDB) :=
  claim_C4 H0 (initState emptyDB) rowEmptyTask 2020 1 (by decide) (by decide)
    (by decide) (Or.inl ⟨by decide, by decide⟩)

/-- C4 counterexample: ingesting a row whose Task cell is the literal
string "none" (raw-truthy, hence accepted) with no task picture stores a
Task whose task text is empty and whose task image is absent -- against
the claimed invariant that every stored field has text or an image. -/
theorem claim_C4_counterexample :
    ∃ o ∈ dbC4.olympiads, o.task = "" ∧ o.task_picture = none := by decide

/-- C5 (amended): when the selected task is absent from the store,
`choose_exercise` replies "not found" and returns CHOOSE_EXERCISE with
the session unchanged -- it does not reset the caller to CHOOSE_YEAR. -/
theorem claim_C5 (db : DB) (st : Session) (text : String) (e : Int)
    (hparse : parseExerciseText st.year text = some e)
    (hnone : get_tasks_for_year_and_exercise db st.year e = []) :
    choose_exercise db (some st) text = (.CHOOSE_EXERCISE, some st) := by
  simp [choose_exercise, hparse, hnone]

/-- Witness for C5: a stale session selecting a task in an emptied store. -/
theorem claim_C5_witness :
    choose_exercise emptyDB (some sess0) "2020 задание 1" =
      (NavState.CHOOSE_EXERCISE, some sess0) :=
  claim_C5 emptyDB sess0 "2020 задание 1" 1 (by decide) (by decide)

/-- C5 counterexample: on a missing task the engine returns
CHOOSE_EXERCISE, not the claimed CHOOSE_YEAR reset. -/
theorem claim_C5_counterexample :
    choose_exercise emptyDB (some sess0) "2020 задание 1" =
      (NavState.CHOOSE_EXERCISE, some sess0) ∧
    NavState.CHOOSE_EXERCISE ≠ NavState.CHOOSE_YEAR := by decide

/-- C6: for every store, year and non-empty topic set,
`get_exercises_by_topics_and_year` returns exactly the exercise numbers
of the year's tasks linked to at least one listed topic (none excluded,
empty when nothing overlaps), strictly ascending and duplicate-free; in
particular with tasks A (topics X,Y) and B (topics Y,Z) in year 2020,
querying topic Y returns both A and B. -/
theorem claim_C6 :
    (∀ (db : DB) (year : Int) (topic_list : List String), topic_list ≠ [] →
      (∀ e : Int, e ∈ get_exercises_by_topics_and_year db year topic_list ↔
        ∃ o ∈ db.olympiads, o.excercise = e ∧
          (∃ p ∈ db.years, p.1 = o.year_id ∧ p.2 = year) ∧
          ∃ l ∈ db.olympiad_topics, l.1 = o.id ∧
            ∃ t ∈ db.topics, t.1 = l.2 ∧ t.2 ∈ topic_list) ∧
      (get_exercises_by_topics_and_year db year topic_list).Pairwise (· < ·)) ∧
    get_exercises_by_topics_and_year dbC6 2020 ["Y"] = [1, 2] := by
  refine ⟨fun db year topic_list _ => ⟨fun e => ?_, pairwise_sortDedup _⟩, by decide⟩
  unfold get_exercises_by_topics_and_year
  rw [mem_sortDedup]
  simp only [List.mem_map, List.mem_filter, Bool.and_eq_true, olympYearIs,
    olympHasTopicIn, List.any_eq_true, beq_iff_eq, List.contains, List.elem_iff]
  tauto

/-- Witness for C6: the characterization applied to the concrete A/B
store with the singleton topic set Y, at exercise number 2 (task B). -/
theorem claim_C6_witness :
    2 ∈ get_exercises_by_topics_and_year dbC6 2020 ["Y"] ↔
      ∃ o ∈ dbC6.olympiads, o.excercise = 2 ∧
        (∃ p ∈ dbC6.years, p.1 = o.year_id ∧ p.2 = 2020) ∧
        ∃ l ∈ dbC6.olympiad_topics, l.1 = o.id ∧
          ∃ t ∈ dbC6.topics, t.1 = l.2 ∧ t.2 ∈ ["Y"] :=
  ((claim_C6.1 dbC6 2020 ["Y"] (by decide)).1 2)

/-- C7: a bundle whose table lacks any required column aborts with a
failure result before any row is processed, and the store is returned
untouched -- even in replace mode no wipe happens. -/
theorem claim_C7 (sheet : Sheet) (replace : Bool) (db : DB) (col : String)
    (hreq : col ∈ requiredCols) (habs : sheet.headers.contains col = false) :
    parse_excel_and_images sheet replace db = (false, initState db) := by
  have hall : (requiredCols.all (fun c => sheet.headers.contains c)) = false := by
    cases hall : requiredCols.all (fun c => sheet.headers.contains c) with
    | false => rfl
    | true =>
      have hc := List.all_eq_true.mp hall col hreq
      rw [habs] at hc
      exact absurd hc (by simp)
  unfold parse_excel_and_images
  rw [hall]
  split
  · rfl
  · rfl

/-- Witness for C7: a bundle missing the Topic column, replace mode, on a
populated store. -/
theorem claim_C7_witness :
    parse_excel_and_images ⟨H0noTopic, [rowA]⟩ true dbC6 = (false, initState dbC6) :=
  claim_C7 ⟨H0noTopic, [rowA]⟩ true dbC6 "Topic" (by decide) (by decide)

/-- C8 (amended): a row whose Year cell raises a caught error
(`ValueError`/`TypeError`: non-numeric text such as "abc", an empty or
None cell, NaN) is skipped, the skip counter is incremented, and the
rest of the bundle loads exactly as it would without that row. But not
every unparseable Year merely skips: a Year cell whose float value
overflows to infinity ("inf", "1e400") raises an `OverflowError` the
per-row handler does not catch, aborting the whole load with a failure
result and the store untouched. -/
theorem claim_C8 :
    (∀ (h : List String) (st : LoadState) (pre post : List (List CellVal))
      (bad : List CellVal), rowNonBlank h bad = true →
      parseNumCell (reqCell h bad "Year") = .badValue →
      processRows h st (pre ++ bad :: post) =
        Option.map bumpSkip (processRows h st (pre ++ post))) ∧
    (∀ (h : List String) (db : DB) (replace : Bool)
      (pre post : List (List CellVal)) (bad : List CellVal) (stF : LoadState),
      (requiredCols.all (fun c => h.contains c)) = true →
      rowNonBlank h bad = true →
      parseNumCell (reqCell h bad "Year") = .badValue →
      processRows h (initState (if replace then wipeDB db else db))
        (pre ++ post) = some stF →
      parse_excel_and_images ⟨h, pre ++ bad :: post⟩ replace db =
        (true, bumpSkip stF)) ∧
    (∀ (h : List String) (db : DB) (replace : Bool)
      (pre post : List (List CellVal)) (bad : List CellVal) (st0 : LoadState),
      (requiredCols.all (fun c => h.contains c)) = true →
      rowNonBlank h bad = true →
      parseNumCell (reqCell h bad "Year") = .overflow →
      processRows h (initState (if replace then wipeDB db else db)) pre =
        some st0 →
      parse_excel_and_images ⟨h, pre ++ bad :: post⟩ replace db =
        (false, initState db)) := by
  have hskip : ∀ (h : List String) (st : LoadState)
      (pre post : List (List CellVal)) (bad : List CellVal),
      rowNonBlank h bad = true →
      parseNumCell (reqCell h bad "Year") = .badValue →
      processRows h st (pre ++ bad :: post) =
        Option.map bumpSkip (processRows h st (pre ++ post)) := by
    intro h st pre post bad hb hy
    rw [processRows_bind, processRows_bind]
    cases hpre : processRows h st pre with
    | none => rfl
    | some st1 =>
      show processRows h st1 (bad :: post) =
        Option.map bumpSkip (processRows h st1 post)
      simp only [processRows]
      rw [if_neg (by rw [rowEffect_badValueYear h st1.db bad hb hy]; simp),
        processRow_skip_badYear h st1 bad hb hy]
      exact processRows_bumpSkip h post st1
  refine ⟨hskip, fun h db replace pre post bad stF hh hb hy hrun => ?_,
          fun h db replace pre post bad st0 hh hb hy hpre => ?_⟩
  · apply parse_some _ _ _ _ hh (by simp)
    show processRows h _ (pre ++ bad :: post) = some (bumpSkip stF)
    rw [hskip h _ pre post bad hb hy, hrun]
    rfl
  · apply parse_none _ _ _ hh (by simp)
    show processRows h _ (pre ++ bad :: post) = none
    rw [processRows_bind, hpre]
    show processRows h st0 (bad :: post) = none
    simp only [processRows]
    rw [if_pos (rowEffect_overflowYear h st0.db bad hb hy)]

/-- Witness for C8: the Year="abc" row in a two-row bundle only bumps the
skip counter (at the loop level and at the pipeline level, with the
explicit post-good-row state), while a Year="inf" row aborts the load. -/
theorem claim_C8_witness :
    processRows H0 (initState emptyDB) ([rowGood] ++ rowBadYear :: []) =
      Option.map bumpSkip (processRows H0 (initState emptyDB) ([rowGood] ++ [])) ∧
    parse_excel_and_images ⟨H0, [rowGood, rowBadYear]⟩ false emptyDB =
      (true, bumpSkip stGood) ∧
    parse_excel_and_images ⟨H0, [rowInf, rowGood]⟩ false emptyDB =
      (false, initState emptyDB) :=
  ⟨claim_C8.1 H0 (initState emptyDB) [rowGood] [] rowBadYear (by decide)
     (by decide),
   claim_C8.2.1 H0 emptyDB false [rowGood] [] rowBadYear stGood (by decide)
     (by decide) (by decide) (by decide),
   claim_C8.2.2 H0 emptyDB false [] [rowGood] rowInf (initState emptyDB)
     (by decide) (by decide) (by decide) (by decide)⟩

/-- C8 counterexample: a bundle holding a valid row plus a Year="inf" row
returns failure with nothing stored -- the single malformed row aborted
the whole load, against the claim that it is skipped and never aborts;
the same bundle without it loads successfully. -/
theorem claim_C8_counterexample :
    parse_excel_and_images ⟨H0, [rowGood, rowInf]⟩ false emptyDB =
      (false, initState emptyDB) ∧
    (parse_excel_and_images ⟨H0, [rowGood]⟩ false emptyDB).1 = true := by
  decide

/-- C9 (amended): in the HINT state the dispatch accepts exactly
reveal-answer, back-to-exercise-list and back-to-year; the browse-related
button is shown but matches no handler (ignored), and the back action
returns the caller to CHOOSE_EXERCISE with the session kept, not to a
re-displayed ViewingTask. -/
theorem claim_C9 (db : DB) (st : Session) :
    hint_dispatch BTN_ANSWER = .showAnswer ∧
    hint_dispatch BTN_BACK_TO_EXERCISES = .backToExercises ∧
    hint_dispatch BTN_BACK_TO_YEAR = .backToYear ∧
    hint_dispatch BTN_TOPIC_EXERCISES = .unhandled ∧
    back_to_exercises db (some st) = (.CHOOSE_EXERCISE, some st) :=
  ⟨by decide, by decide, by decide, by decide, rfl⟩

/-- C9 counterexample: browse-related is unhandled in HINT, and the back
action lands in CHOOSE_EXERCISE, not in the TASK (ViewingTask) state. -/
theorem claim_C9_counterexample :
    hint_dispatch BTN_TOPIC_EXERCISES = HintStep.unhandled ∧
    back_to_exercises dbC6 (some sess0) = (NavState.CHOOSE_EXERCISE, some sess0) ∧
    NavState.CHOOSE_EXERCISE ≠ NavState.TASK := by decide

/-- C10: a row whose Year or Excercise cell parses to the integer 0 is
skipped (the truthiness check treats 0 as missing data), and consequently
no stored task ever has exercise number 0 or year 0. -/
theorem claim_C10 :
    (∀ (h : List String) (st : LoadState) (row : List CellVal),
      rowNonBlank h row = true →
      parseNumCell (reqCell h row "Year") = .ok 0 →
      parseNumCell (reqCell h row "Excercise") ≠ .overflow →
      processRow h st row = bumpSkip st) ∧
    (∀ (h : List String) (st : LoadState) (row : List CellVal) (y : Int),
      rowNonBlank h row = true →
      parseNumCell (reqCell h row "Year") = .ok y →
      parseNumCell (reqCell h row "Excercise") = .ok 0 →
      processRow h st row = bumpSkip st) ∧
    (∀ (sheet : Sheet) (replace : Bool) (db : DB),
      (∀ o ∈ db.olympiads, o.excercise ≠ 0) →
      (∀ p ∈ db.years, p.2 ≠ 0) →
      (∀ o ∈ (parse_excel_and_images sheet replace db).2.db.olympiads,
        o.excercise ≠ 0) ∧
      (∀ p ∈ (parse_excel_and_images sheet replace db).2.db.years, p.2 ≠ 0)) := by
  refine ⟨fun h st row hb hy hex => processRow_skip_zeroYear h st row hb hy hex,
          fun h st row y hb hy hex => processRow_skip_zeroExc h st row y hb hy hex,
          fun sheet replace db hole hyr => ?_⟩
  unfold parse_excel_and_images
  split
  · exact ⟨hole, hyr⟩
  · split
    · exact ⟨hole, hyr⟩
    · dsimp only
      cases hm : processRows sheet.headers
          (initState (if replace then wipeDB db else db)) sheet.rows with
      | none => exact ⟨hole, hyr⟩
      | some final =>
        refine processRows_no_zero sheet.headers sheet.rows _ final hm ?_ ?_
        · split
          · intro o ho; simp [initState, wipeDB] at ho
          · exact hole
        · split
          · intro p hp; simp [initState, wipeDB] at hp
          · exact hyr

/-- Witness for C10: both zero-cases at concrete rows, and invariant
preservation through a run ingesting a Year=0 row into a fresh store. -/
theorem claim_C10_witness :
    processRow H0 (initState emptyDB) rowZeroYear = bumpSkip (initState emptyDB) ∧
    processRow H0 (initState emptyDB) rowZeroExc = bumpSkip (initState emptyDB) ∧
    (∀ o ∈ (parse_excel_and_images ⟨H0, [rowZeroYear]⟩ true emptyDB).2.db.olympiads,
      o.excercise ≠ 0) :=
  ⟨claim_C10.1 H0 (initState emptyDB) rowZeroYear (by decide) (by decide)
     (by decide),
   claim_C10.2.1 H0 (initState emptyDB) rowZeroExc 2020 (by decide) (by decide)
     (by decide),
   (claim_C10.2.2 ⟨H0, [rowZeroYear]⟩ true emptyDB (by decide) (by decide)).1⟩

end QuizBot
